import Mathlib

/-!
Shallow embedding of the PokemonGenerator2 core: the remote generator client
(services/pokemonApiService.ts) and the application coordinator
(App.tsx, reproduced inside docs/02-api.md): token balance, generate flow with
optimistic debit and rollback, resell flow, sorting, and the pokedex score.

Conventions used throughout:
  - JavaScript numbers holding integer values are embedded as Int.
  - JavaScript exceptions are embedded as Except values; each distinct throw
    site / catch classification of the service becomes a constructor of
    GenFailure, carrying the thrown message.
  - Asynchronous effects (fetch outcome, IndexedDB call outcomes) are inputs
    of the embedded functions: the functions are parameterised by what the
    environment does at each suspension point.
  - Array.prototype.sort with a numeric comparator c is embedded as the
    stable List.mergeSort with the relation (fun a b => c a b <= 0), matching
    the ECMAScript requirement that sort be stable.
  - The IndexedDB service (services/indexedDbService.ts) is not part of the
    sources; its operations are modelled from the spec (see the Store
    definitions below).
-/

namespace PokemonGen

/-- Rarity enum of types.ts, modelled from the spec: ordered F < E < D < C < B < A < S < S+. -/
inductive PokemonRarity
  | F
  | E
  | D
  | C
  | B
  | A
  | S
  | S_PLUS
deriving DecidableEq, Repr, Fintype

/-- Status enum of types.ts, modelled from the spec: OWNED or RESOLD. -/
inductive PokemonStatus
  | OWNED
  | RESOLD
deriving DecidableEq, Repr

/-- Pokemon record of types.ts, modelled from the spec: the nine data fields
plus the status. -/
structure Pokemon where
  id : String
  name : String
  rarity : PokemonRarity
  type : String
  attack : Int
  attackName : String
  pv : Int
  imageBase64 : String
  generatedAt : String
  status : PokemonStatus
deriving DecidableEq, Repr

/-- App.tsx: `const GENERATION_COST = 10`. -/
def GENERATION_COST : Int := 10

/-- App.tsx: `POKEMON_RESELL_VALUES`, resell credit keyed by rarity. -/
def POKEMON_RESELL_VALUES : PokemonRarity → Int
  | .F => 2
  | .E => 3
  | .D => 5
  | .C => 8
  | .B => 12
  | .A => 18
  | .S => 25
  | .S_PLUS => 40

/-- App.tsx: `RARITY_VALUES`, numeric sort key per rarity. -/
def RARITY_VALUES : PokemonRarity → Int
  | .F => 0
  | .E => 1
  | .D => 2
  | .C => 3
  | .B => 4
  | .A => 5
  | .S => 6
  | .S_PLUS => 7

/-- App.tsx: `const OWNED_POKEMON_SCORE = 10`. -/
def OWNED_POKEMON_SCORE : Int := 10

/-- App.tsx: `const RESOLD_POKEMON_SCORE = 2`. -/
def RESOLD_POKEMON_SCORE : Int := 2

/-- App.tsx: `type SortOrder`, one of `newestFirst | rarityAsc | rarityDesc`. -/
inductive SortOrder
  | newestFirst
  | rarityAsc
  | rarityDesc
deriving DecidableEq, Repr

/-- Comparator of App.tsx `sortPokemons`, turned into the boolean relation
"a goes no later than b", i.e. comparator(a,b) <= 0.  `dt` embeds
`new Date(s).getTime()` as an uninterpreted integer-valued time of a
timestamp string. -/
def sortLe (so : SortOrder) (dt : String → Int) (a b : Pokemon) : Bool :=
  match so with
  | .newestFirst => dt b.generatedAt - dt a.generatedAt ≤ 0
  | .rarityAsc => RARITY_VALUES a.rarity - RARITY_VALUES b.rarity ≤ 0
  | .rarityDesc => RARITY_VALUES b.rarity - RARITY_VALUES a.rarity ≤ 0

/-- App.tsx `sortPokemons`: copy the array and stable-sort it with the
comparator for the current sort order. ECMAScript `Array.prototype.sort` is
required to be stable, and a stable sort of a total preorder is unique, so it
is embedded as insertion sort on the relation "comparator(a,b) <= 0". -/
def sortPokemons (so : SortOrder) (dt : String → Int) (l : List Pokemon) : List Pokemon :=
  List.insertionSort (fun a b => sortLe so dt a b = true) l

/-- App.tsx `pokedexScore`: fold over the collection adding
OWNED_POKEMON_SCORE for each OWNED record and RESOLD_POKEMON_SCORE for each
RESOLD record. -/
def pokedexScore (pokemons : List Pokemon) : Int :=
  pokemons.foldl
    (fun score p =>
      if p.status = .OWNED then score + OWNED_POKEMON_SCORE
      else if p.status = .RESOLD then score + RESOLD_POKEMON_SCORE
      else score)
    0

/-! Remote Generator Client: services/pokemonApiService.ts. -/

/-- pokemonApiService.ts: `const API_BASE_URL`. -/
def API_BASE_URL : String := "https://epsi.journeesdecouverte.fr:22222/v1"

/-- pokemonApiService.ts: `const REQUEST_TIMEOUT = 30000` (milliseconds). -/
def REQUEST_TIMEOUT : Nat := 30000

/-- pokemonApiService.ts: `POKEMON_TYPES`, the fixed element-type set used for
client-side synthesis. -/
def POKEMON_TYPES : List String :=
  ["Normal", "Fire", "Water", "Grass", "Electric", "Ice", "Fighting", "Poison",
   "Ground", "Flying", "Psychic", "Bug", "Rock", "Ghost", "Dragon", "Steel",
   "Dark", "Fairy"]

/-- pokemonApiService.ts: `POKEMON_ATTACKS`, the fixed move-name set used for
client-side synthesis. -/
def POKEMON_ATTACKS : List String :=
  ["Tackle", "Scratch", "Ember", "Water Gun", "Vine Whip", "Thunder Shock",
   "Quick Attack", "Bite", "Growl", "Tail Whip", "Sand Attack", "Confusion"]

/-- Outcomes of the four `Math.random()` draws of generatePokemon, embedded as
the bounded integers they produce: `Math.floor(Math.random() * n)` is a value
of `Fin n`, and the affine shifts `+ 10` / `+ 50` are applied where the code
applies them. -/
structure RandomDraws where
  typeIdx : Fin 18
  attackOff : Fin 91
  attackNameIdx : Fin 12
  pvOff : Fin 151
deriving DecidableEq, Repr

/-- Value of `POKEMON_TYPES[Math.floor(Math.random() * POKEMON_TYPES.length)]`. -/
def pickType (i : Fin 18) : String := POKEMON_TYPES.get (Fin.cast (by rfl) i)

/-- Value of `POKEMON_ATTACKS[Math.floor(Math.random() * POKEMON_ATTACKS.length)]`. -/
def pickAttackName (i : Fin 12) : String := POKEMON_ATTACKS.get (Fin.cast (by rfl) i)

/-- Decoded `metadata` object of a 200 response. Absent JSON fields are `none`.
The code later casts `metadata.rarity` to the PokemonRarity enum without a
runtime check; the remote contract (docs/02-api.md) bounds rarity to the enum,
so a present rarity is embedded directly as the enum. The four gameplay-stat
fields may or may not be supplied by the remote; generatePokemon overwrites
them before reading them. -/
structure ApiMetadata where
  id : Option String
  name : Option String
  rarity : Option PokemonRarity
  type : Option String
  attack : Option Int
  attackName : Option String
  pv : Option Int
deriving DecidableEq, Repr

/-- Decoded top-level JSON body of a 200 response. -/
structure ApiResponseBody where
  imageBase64 : Option String
  metadata : Option ApiMetadata
  generatedAt : Option String
deriving DecidableEq, Repr

/-- Result of `await res.json()` on the 200 path: the promise may reject
(malformed JSON), produce the JSON literal `null` (falsy), or produce an
object. -/
inductive JsonResult
  | parseFailed
  | nullValue
  | object (b : ApiResponseBody)
deriving DecidableEq, Repr

/-- Result of `res.json().catch(...)` followed by `errorData?.error?.message`
on the non-2xx path: decoding may fail (the catch fallback object is used, so
the message read is the truthy fallback string), succeed without a usable
`error.message`, or succeed with a message string. -/
inductive ErrorDecode
  | parseFailed
  | noMessage
  | message (m : String)
deriving DecidableEq, Repr

/-- Resolved `fetch` response: the HTTP status, the `ok` flag, and the decode
outcomes used by the non-2xx and 2xx paths respectively (the single
`res.json()` call of each path). -/
structure FetchResponse where
  status : Nat
  ok : Bool
  errorDecode : ErrorDecode
  body : JsonResult
deriving DecidableEq, Repr

/-- Rejection reasons of the `fetch` promise (and of the awaits that follow),
as classified by the catch block: `AbortError`, `TypeError: Failed to fetch`,
or anything else. -/
inductive JsError
  | abortError
  | failedToFetch
  | other (msg : String)
deriving DecidableEq, Repr

/-- Settled outcome of the awaited `fetch` call. -/
inductive FetchSettled
  | resolved (r : FetchResponse)
  | rejected (e : JsError)
deriving DecidableEq, Repr

/-- Failure of generatePokemon. Every failure is thrown as a plain `Error`
whose message is the carried string; the constructors record the distinct
throw sites / catch classifications of the code (timeout, connectivity,
validation, decoded remote error, decode-fallback remote error, and raw
rethrown exceptions). -/
inductive GenFailure
  | timeout (msg : String)
  | networkUnavailable (msg : String)
  | malformedResponse (msg : String)
  | remoteError (msg : String)
  | unknownError (status : Nat) (msg : String)
  | jsException (msg : String)
deriving DecidableEq, Repr

/-- Message of the AbortError catch branch (REQUEST_TIMEOUT / 1000 = 30). -/
def timeoutMessage : String :=
  "The Pokémon generation request timed out after " ++ toString (REQUEST_TIMEOUT / 1000) ++
    " seconds. The API might be busy, please try again later."

/-- Message of the `TypeError: Failed to fetch` catch branch. -/
def networkUnavailableMessage : String :=
  "Could not connect to the Pokémon API. This might be a network issue, the API server being down, or a self-signed HTTPS certificate. If the API uses a self-signed certificate, please try opening " ++
    API_BASE_URL ++ "/generate" ++
    " in a new browser tab and accepting the security warning, then refresh this page. Also, verify the API server has correct CORS configuration for your client application\x27s origin."

/-- Message of the validation throw. -/
def malformedMessage : String :=
  "Invalid API response format received: missing expected fields (id, name, rarity, type, attack, attackName, pv, imageBase64, generatedAt)."

/-- Fallback message used when `errorData?.error?.message` is falsy. -/
def httpFallbackMessage (status : Nat) : String :=
  "Failed to generate Pokémon (HTTP (" ++ toString status ++ "))"

/-- Message of the catch fallback object built when the error body fails to
decode: `HTTP error! Status: N`. -/
def httpStatusMessage (status : Nat) : String :=
  "HTTP error! Status: " ++ toString status

/-- Body of PokemonApiService.generatePokemon after the fetch settled, i.e.
the try block from line 52 on together with the catch block. Throws inside
the try that are neither an AbortError nor a `Failed to fetch` TypeError are
rethrown unchanged by the catch, so those throw sites produce their failure
directly. -/
def generatePokemonSettled (draws : RandomDraws) : FetchSettled → Except GenFailure Pokemon
  | .rejected .abortError => .error (.timeout timeoutMessage)
  | .rejected .failedToFetch => .error (.networkUnavailable networkUnavailableMessage)
  | .rejected (.other m) => .error (.jsException m)
  | .resolved r =>
    if !r.ok then
      -- non-2xx: decode-or-fallback, then `throw new Error(message || fallback)`
      match r.errorDecode with
      | .parseFailed => .error (.unknownError r.status (httpStatusMessage r.status))
      | .noMessage => .error (.remoteError (httpFallbackMessage r.status))
      | .message m =>
          .error (.remoteError (if m.isEmpty then httpFallbackMessage r.status else m))
    else
      match r.body with
      | .parseFailed =>
          -- `await res.json()` rejected: SyntaxError, rethrown raw by the catch
          .error (.jsException ("SyntaxError: unexpected token in JSON"))
      | .nullValue =>
          -- `data.metadata.type = ...` reads `.metadata` of null: TypeError,
          -- rethrown raw by the catch (the `!data` validation is never reached)
          .error (.jsException ("TypeError: Cannot read properties of null"))
      | .object b =>
        match b.metadata with
        | none =>
            -- `data.metadata.type = ...` assigns into undefined: TypeError,
            -- rethrown raw by the catch (validation is never reached)
            .error (.jsException ("TypeError: Cannot set properties of undefined"))
        | some m =>
          -- local synthesis of the four gameplay stats, before validation
          let m1 : ApiMetadata :=
            { m with
              type := some (pickType draws.typeIdx),
              attack := some (10 + (draws.attackOff.val : Int)),
              attackName := some (pickAttackName draws.attackNameIdx),
              pv := some (50 + (draws.pvOff.val : Int)) }
          -- validation: `!x` on a string is true for absent or empty, on a
          -- number for absent or zero
          match b.imageBase64, m1.id, m1.name, m1.rarity, m1.type, m1.attack,
              m1.attackName, m1.pv, b.generatedAt with
          | some img, some id, some name, some rarity, some ty, some atk,
              some atkName, some pv, some gAt =>
            if img.isEmpty || id.isEmpty || name.isEmpty || ty.isEmpty ||
                atk = 0 || atkName.isEmpty || pv = 0 || gAt.isEmpty then
              .error (.malformedResponse malformedMessage)
            else
              .ok
                { id := id, name := name, rarity := rarity, type := ty,
                  attack := atk, attackName := atkName, pv := pv,
                  imageBase64 := img, generatedAt := gAt,
                  status := PokemonStatus.OWNED }
          | _, _, _, _, _, _, _, _, _ =>
              .error (.malformedResponse malformedMessage)

/-- Timeout machinery: `setTimeout(() => controller.abort(), REQUEST_TIMEOUT)`.
If the fetch has not settled within REQUEST_TIMEOUT the in-flight call is
aborted and the awaited fetch rejects with an AbortError, discarding whatever
the call would otherwise have produced. -/
def resolveFetch (latency : Nat) (settled : FetchSettled) : FetchSettled :=
  if REQUEST_TIMEOUT ≤ latency then .rejected .abortError else settled

/-- PokemonApiService.generatePokemon: the fetch latency and settled outcome
and the four random draws are the inputs of the embedded function. -/
def generatePokemon (draws : RandomDraws) (latency : Nat) (settled : FetchSettled) :
    Except GenFailure Pokemon :=
  generatePokemonSettled draws (resolveFetch latency settled)

/-! Local Store and Coordinator: App.tsx (reproduced in docs/02-api.md). -/

/-- Failure kinds of Local Store operations. `infrastructure` is an injected
IndexedDB-level failure (request error / aborted transaction), possible on
any call. -/
inductive StoreErr
  | duplicateId
  | notFound
  | invalidTransition
  | invalidValue
  | infrastructure
deriving DecidableEq, Repr

/-- Durable state of the Local Store: the persisted collection (order as
persisted) and the singleton token balance. -/
structure StoreState where
  pokemons : List Pokemon
  balance : Int
deriving DecidableEq, Repr

/-- In-memory React state of App.tsx used by the two flows: `pokemons` and
`tokenBalance`. -/
structure AppState where
  pokemons : List Pokemon
  tokenBalance : Int
deriving DecidableEq, Repr

/-- Modelled from the spec: Local Store `addPokemon` (services/indexedDbService.ts
is not among the sources) — fails with DuplicateId if the id already exists,
otherwise persists atomically. -/
def Store.addPokemon (s : StoreState) (p : Pokemon) : Except StoreErr StoreState :=
  if s.pokemons.any (fun q => q.id = p.id) then .error .duplicateId
  else .ok { s with pokemons := s.pokemons ++ [p] }

/-- Modelled from the spec: Local Store `updatePokemon` — fails with NotFound
if the id is absent, with InvalidTransition if the update would set a RESOLD
record back to OWNED, otherwise replaces the record atomically. -/
def Store.updatePokemon (s : StoreState) (p : Pokemon) : Except StoreErr StoreState :=
  match s.pokemons.find? (fun q => q.id = p.id) with
  | none => .error .notFound
  | some q =>
    if q.status = PokemonStatus.RESOLD ∧ p.status = PokemonStatus.OWNED then
      .error .invalidTransition
    else
      .ok { s with pokemons := s.pokemons.map (fun q2 => if q2.id = p.id then p else q2) }

/-- Modelled from the spec: Local Store `setBalance` / `updateTokenBalance` —
fails with InvalidValue if the value is negative, otherwise writes the
singleton balance atomically. -/
def Store.updateTokenBalance (s : StoreState) (n : Int) : Except StoreErr StoreState :=
  if n < 0 then .error .invalidValue else .ok { s with balance := n }

/-- Store balance write with an injected infrastructure fault. -/
def storeWriteBalance (s : StoreState) (n : Int) (fault : Bool) : Except StoreErr StoreState :=
  if fault then .error .infrastructure else Store.updateTokenBalance s n

/-- Store add with an injected infrastructure fault. -/
def storeAddPokemon (s : StoreState) (p : Pokemon) (fault : Bool) : Except StoreErr StoreState :=
  if fault then .error .infrastructure else Store.addPokemon s p

/-- Store update with an injected infrastructure fault. -/
def storeUpdatePokemon (s : StoreState) (p : Pokemon) (fault : Bool) : Except StoreErr StoreState :=
  if fault then .error .infrastructure else Store.updatePokemon s p

/-- Outcome surfaced by handleGeneratePokemon: the early-return warning, the
success message, or the catch branch (failure message plus the
"Tokens refunded." note) triggered by the generator call or by a Store
call. -/
inductive GenOutcome
  | insufficient (balance : Int)
  | generated (p : Pokemon)
  | failed (e : GenFailure)
  | storeFailed (e : StoreErr)
deriving DecidableEq, Repr

/-- Environment of one generate invocation: what the debit write, the remote
generator call, and the persist call do at their suspension points. -/
structure GenEnv where
  debitFault : Bool
  genResult : Except GenFailure Pokemon
  addFault : Bool
deriving Repr

/-- App.tsx handleGeneratePokemon. Reject below GENERATION_COST; otherwise
optimistically debit in memory and in the Store, call the generator, persist
the new record, and on any throw roll the balance back to its pre-debit value
in memory and in the Store (the compensating balance write always succeeds in
the spec Store model since the pre-debit value is at least GENERATION_COST,
hence non-negative). -/
def handleGeneratePokemon (so : SortOrder) (dt : String → Int)
    (app : AppState) (store : StoreState) (env : GenEnv) :
    AppState × StoreState × GenOutcome :=
  if app.tokenBalance < GENERATION_COST then
    (app, store, .insufficient app.tokenBalance)
  else
    let originalTokenBalance := app.tokenBalance
    let newBalanceAfterDeduction := originalTokenBalance - GENERATION_COST
    let app1 : AppState := { app with tokenBalance := newBalanceAfterDeduction }
    match storeWriteBalance store newBalanceAfterDeduction env.debitFault with
    | .error e =>
      ({ app1 with tokenBalance := originalTokenBalance },
       { store with balance := originalTokenBalance },
       .storeFailed e)
    | .ok store1 =>
      match env.genResult with
      | .error e =>
        ({ app1 with tokenBalance := originalTokenBalance },
         { store1 with balance := originalTokenBalance },
         .failed e)
      | .ok newPokemon =>
        match storeAddPokemon store1 newPokemon env.addFault with
        | .error e =>
          ({ app1 with tokenBalance := originalTokenBalance },
           { store1 with balance := originalTokenBalance },
           .storeFailed e)
        | .ok store2 =>
          ({ pokemons := sortPokemons so dt (newPokemon :: app1.pokemons),
             tokenBalance := newBalanceAfterDeduction },
           store2,
           .generated newPokemon)

/-- Outcome surfaced by the resell confirm handler: the success message, the
catch branch showing the Store failure, or — when `pokemons.find` returns
nothing — a silent no-op (the `if (pokemonToResell)` guard fails, the try
block completes without doing or reporting anything, and the modal closes). -/
inductive ResellOutcome
  | resold (name : String) (price : Int)
  | failedStore (e : StoreErr)
  | notFoundNoop
deriving DecidableEq, Repr

/-- Environment of one resell confirmation: what the record update write and
the balance write do. -/
structure ResellEnv where
  updateFault : Bool
  balanceFault : Bool
deriving DecidableEq, Repr

/-- Confirm closure built by App.tsx handleResellConfirmation, closing over
`pokemonId` and `resellPrice`: look the record up in the in-memory collection
(no status check), write the RESOLD copy and then the credited balance to the
Store, and only then update the in-memory collection and balance. -/
def resellConfirm (so : SortOrder) (dt : String → Int)
    (pokemonId : String) (resellPrice : Int)
    (app : AppState) (store : StoreState) (env : ResellEnv) :
    AppState × StoreState × ResellOutcome :=
  match app.pokemons.find? (fun p => p.id = pokemonId) with
  | none => (app, store, .notFoundNoop)
  | some pokemonToResell =>
    let updatedPokemon : Pokemon := { pokemonToResell with status := PokemonStatus.RESOLD }
    match storeUpdatePokemon store updatedPokemon env.updateFault with
    | .error e => (app, store, .failedStore e)
    | .ok store1 =>
      let newBalance := app.tokenBalance + resellPrice
      match storeWriteBalance store1 newBalance env.balanceFault with
      | .error e => (app, store1, .failedStore e)
      | .ok store2 =>
        ({ pokemons := sortPokemons so dt
             (app.pokemons.map (fun p => if p.id = updatedPokemon.id then updatedPokemon else p)),
           tokenBalance := newBalance },
         store2,
         .resold pokemonToResell.name resellPrice)

/-- App.tsx handleResellConfirmation: computes the resell price from the
rarity passed by the card button and installs the confirm closure. -/
def handleResellConfirmation (so : SortOrder) (dt : String → Int)
    (pokemonId : String) (pokemonRarity : PokemonRarity)
    (app : AppState) (store : StoreState) (env : ResellEnv) :
    AppState × StoreState × ResellOutcome :=
  resellConfirm so dt pokemonId (POKEMON_RESELL_VALUES pokemonRarity) app store env

/-! Derived definitions used to state the claims. -/

/-- Number of OWNED records of a collection. -/
def ownedCount (l : List Pokemon) : Nat :=
  l.countP (fun p => p.status = PokemonStatus.OWNED)

/-- Number of RESOLD records of a collection. -/
def resoldCount (l : List Pokemon) : Nat :=
  l.countP (fun p => p.status = PokemonStatus.RESOLD)

/-- Rarity sort key of a record, as used by the rarity comparators. -/
def rarityKey (p : Pokemon) : Int := RARITY_VALUES p.rarity

/-- Substring containment, used to state what a message guides the caller
toward. -/
def mentions (s sub : String) : Prop := List.IsInfix sub.toList s.toList

instance (s sub : String) : Decidable (mentions s sub) := List.decidableInfix _ _

/-- JS truthiness of an optional string field: false for an absent field and
for the empty string. -/
def truthyStr : Option String → Bool
  | none => false
  | some s => !s.isEmpty

/-- Concrete record used by witnesses and counterexamples. -/
def samplePokemon (nm : String) (r : PokemonRarity) (st : PokemonStatus) : Pokemon :=
  { id := nm, name := nm, rarity := r, type := "Fire", attack := 50,
    attackName := "Ember", pv := 100, imageBase64 := "aW1n",
    generatedAt := "2025-11-12T09:15:27Z", status := st }

/-- Concrete timestamp interpretation used by witnesses and counterexamples. -/
def dt0 : String → Int := fun _ => 0

/-- Concrete decoded success body used by witnesses: the remote supplies no
gameplay stats, as in its true contract. -/
def sampleBody : ApiResponseBody :=
  { imageBase64 := some ("aW1n"),
    metadata := some
      { id := some ("pkm1"), name := some ("Voltadraco"), rarity := some PokemonRarity.A,
        type := none, attack := none, attackName := none, pv := none },
    generatedAt := some ("2025-11-12T09:15:27Z") }

/-- Concrete 200 response used by witnesses. -/
def sampleResponse : FetchResponse :=
  { status := 200, ok := true, errorDecode := ErrorDecode.parseFailed,
    body := JsonResult.object sampleBody }

/-- Concrete random draws used by witnesses. -/
def sampleDraws : RandomDraws :=
  { typeIdx := 0, attackOff := 0, attackNameIdx := 0, pvOff := 0 }

/-- Record the service produces on sampleDraws applied to sampleResponse. -/
def samplePokemonResult : Pokemon :=
  { id := "pkm1", name := "Voltadraco", rarity := PokemonRarity.A, type := "Normal",
    attack := 10, attackName := "Tackle", pv := 50, imageBase64 := "aW1n",
    generatedAt := "2025-11-12T09:15:27Z", status := PokemonStatus.OWNED }

/-! Helper lemmas. -/

theorem pokedexScore_aux (l : List Pokemon) (n : Int) :
    l.foldl
      (fun score p =>
        if p.status = PokemonStatus.OWNED then score + OWNED_POKEMON_SCORE
        else if p.status = PokemonStatus.RESOLD then score + RESOLD_POKEMON_SCORE
        else score)
      n
    = n + 10 * (ownedCount l : Int) + 2 * (resoldCount l : Int) := by
  induction l generalizing n with
  | nil => simp [ownedCount, resoldCount]
  | cons p t ih =>
    cases hp : p.status with
    | OWNED =>
      rw [List.foldl_cons, hp, if_pos rfl, ih]
      have h1 : ownedCount (p :: t) = ownedCount t + 1 := by
        simp [ownedCount, List.countP_cons, hp]
      have h2 : resoldCount (p :: t) = resoldCount t := by
        simp [resoldCount, List.countP_cons, hp]
      rw [h1, h2, OWNED_POKEMON_SCORE]
      push_cast
      ring
    | RESOLD =>
      rw [List.foldl_cons, hp, if_neg (by decide), if_pos rfl, ih]
      have h1 : ownedCount (p :: t) = ownedCount t := by
        simp [ownedCount, List.countP_cons, hp]
      have h2 : resoldCount (p :: t) = resoldCount t + 1 := by
        simp [resoldCount, List.countP_cons, hp]
      rw [h1, h2, RESOLD_POKEMON_SCORE]
      push_cast
      ring

theorem sortLe_rarityAsc (dt : String → Int) (a b : Pokemon) :
    (sortLe SortOrder.rarityAsc dt a b = true) ↔ rarityKey a ≤ rarityKey b := by
  simp [sortLe, rarityKey, sub_nonpos]

theorem sortLe_rarityDesc (dt : String → Int) (a b : Pokemon) :
    (sortLe SortOrder.rarityDesc dt a b = true) ↔ rarityKey b ≤ rarityKey a := by
  simp [sortLe, rarityKey, sub_nonpos]

theorem RARITY_VALUES_inj (a b : PokemonRarity) :
    RARITY_VALUES a = RARITY_VALUES b → a = b := by
  revert a b; decide

theorem POKEMON_RESELL_VALUES_nonneg (r : PokemonRarity) :
    0 ≤ POKEMON_RESELL_VALUES r := by
  revert r; decide

/-- Core behaviour of the resell confirm closure when the lookup finds a
record (of any status) and the two Store writes succeed. -/
theorem resellConfirm_found (so : SortOrder) (dt : String → Int) (pokemonId : String)
    (price : Int) (app : AppState) (store : StoreState) (env : ResellEnv) (p : Pokemon)
    (hfind : app.pokemons.find? (fun q => q.id = pokemonId) = some p)
    (hstore : (store.pokemons.find? (fun q => q.id = p.id)).isSome = true)
    (hu : env.updateFault = false) (hb : env.balanceFault = false)
    (hnn : 0 ≤ app.tokenBalance + price) :
    resellConfirm so dt pokemonId price app store env =
      ({ pokemons := sortPokemons so dt (app.pokemons.map
           (fun q2 => if q2.id = p.id then { p with status := PokemonStatus.RESOLD } else q2)),
         tokenBalance := app.tokenBalance + price },
       { pokemons := store.pokemons.map
           (fun q2 => if q2.id = p.id then { p with status := PokemonStatus.RESOLD } else q2),
         balance := app.tokenBalance + price },
       ResellOutcome.resold p.name price) := by
  obtain ⟨q, hq⟩ := Option.isSome_iff_exists.mp hstore
  unfold resellConfirm
  rw [hfind]
  simp only [hu, hb, storeUpdatePokemon, storeWriteBalance, Store.updatePokemon,
    Store.updateTokenBalance, Bool.false_eq_true, if_false]
  rw [hq]
  simp only [if_neg (not_lt.mpr hnn)]
  simp [hq]

/-- Membership of the RESOLD copy in the replaced-and-sorted collection. -/
theorem resold_copy_mem (so : SortOrder) (dt : String → Int) (l : List Pokemon)
    (p : Pokemon) (hmem : p ∈ l) :
    { p with status := PokemonStatus.RESOLD } ∈
      sortPokemons so dt (l.map
        (fun q2 => if q2.id = p.id then { p with status := PokemonStatus.RESOLD } else q2)) := by
  have h1 : { p with status := PokemonStatus.RESOLD } ∈
      l.map (fun q2 => if q2.id = p.id then { p with status := PokemonStatus.RESOLD } else q2) := by
    have := List.mem_map_of_mem
      (f := fun q2 => if q2.id = p.id then { p with status := PokemonStatus.RESOLD } else q2) hmem
    simpa using this
  exact (List.perm_insertionSort _ _).mem_iff.mpr h1

/-- Membership of the RESOLD copy in the store-side replaced collection, given
a stored record with the same id. -/
theorem resold_copy_mem_store (l : List Pokemon) (p q : Pokemon)
    (hq : l.find? (fun q2 => q2.id = p.id) = some q) :
    { p with status := PokemonStatus.RESOLD } ∈
      l.map (fun q2 => if q2.id = p.id then { p with status := PokemonStatus.RESOLD } else q2) := by
  have hqmem : q ∈ l := List.mem_of_find?_eq_some hq
  have hqid : q.id = p.id := by
    have := List.find?_some hq
    simpa using this
  have := List.mem_map_of_mem
    (f := fun q2 => if q2.id = p.id then { p with status := PokemonStatus.RESOLD } else q2) hqmem
  simpa [hqid] using this

/-- C2 counterexample: on a collection holding a single already-RESOLD record
(rarity A) and balance 5, confirming a resell of that record does not fail:
it credits the balance again, to 23. -/
theorem resell_resold_counterexample :
    (handleResellConfirmation SortOrder.rarityAsc dt0 ("a") PokemonRarity.A
        { pokemons := [samplePokemon ("a") PokemonRarity.A PokemonStatus.RESOLD], tokenBalance := 5 }
        { pokemons := [samplePokemon ("a") PokemonRarity.A PokemonStatus.RESOLD], balance := 5 }
        { updateFault := false, balanceFault := false }).1.tokenBalance = 23 ∧
    (5 : Int) ≠ 23 := by
  constructor
  · decide
  · decide

/-- C2 (amended): the confirm handler performs no status validation. When the
target id is not in the in-memory collection the operation is a silent no-op
(no failure of any kind is reported and no state changes); when the target
record is found — even with status RESOLD — and the Store writes succeed, the
resell is performed again: the balance is credited by the resell value of the
rarity passed to the handler and the success outcome is reported. -/
theorem resell_no_status_validation (so : SortOrder) (dt : String → Int)
    (pokemonId : String) (rar : PokemonRarity)
    (app : AppState) (store : StoreState) (env : ResellEnv) :
    (app.pokemons.find? (fun q => q.id = pokemonId) = none →
      handleResellConfirmation so dt pokemonId rar app store env =
        (app, store, ResellOutcome.notFoundNoop)) ∧
    (∀ p, app.pokemons.find? (fun q => q.id = pokemonId) = some p →
      p.status = PokemonStatus.RESOLD →
      (store.pokemons.find? (fun q => q.id = p.id)).isSome = true →
      env.updateFault = false → env.balanceFault = false →
      0 ≤ app.tokenBalance →
      (handleResellConfirmation so dt pokemonId rar app store env).1.tokenBalance
          = app.tokenBalance + POKEMON_RESELL_VALUES rar ∧
      (handleResellConfirmation so dt pokemonId rar app store env).2.2
          = ResellOutcome.resold p.name (POKEMON_RESELL_VALUES rar)) := by
  constructor
  · intro hnone
    unfold handleResellConfirmation resellConfirm
    rw [hnone]
  · intro p hfind hres hstore hu hb hbal
    have hnn : 0 ≤ app.tokenBalance + POKEMON_RESELL_VALUES rar :=
      add_nonneg hbal (POKEMON_RESELL_VALUES_nonneg rar)
    unfold handleResellConfirmation
    rw [resellConfirm_found so dt pokemonId (POKEMON_RESELL_VALUES rar) app store env p
      hfind hstore hu hb hnn]
    exact ⟨rfl, rfl⟩

theorem resell_no_status_validation_witness :
    (([samplePokemon ("a") PokemonRarity.A PokemonStatus.RESOLD].find?
        (fun q => q.id = "a")) = some (samplePokemon ("a") PokemonRarity.A PokemonStatus.RESOLD)) ∧
    ((handleResellConfirmation SortOrder.rarityAsc dt0 ("a") PokemonRarity.A
        { pokemons := [samplePokemon ("a") PokemonRarity.A PokemonStatus.RESOLD], tokenBalance := 5 }
        { pokemons := [samplePokemon ("a") PokemonRarity.A PokemonStatus.RESOLD], balance := 5 }
        { updateFault := false, balanceFault := false }).1.tokenBalance
      = 5 + POKEMON_RESELL_VALUES PokemonRarity.A) :=
  ⟨by decide,
   ((resell_no_status_validation SortOrder.rarityAsc dt0 ("a") PokemonRarity.A
      { pokemons := [samplePokemon ("a") PokemonRarity.A PokemonStatus.RESOLD], tokenBalance := 5 }
      { pokemons := [samplePokemon ("a") PokemonRarity.A PokemonStatus.RESOLD], balance := 5 }
      { updateFault := false, balanceFault := false }).2
     (samplePokemon ("a") PokemonRarity.A PokemonStatus.RESOLD)
     (by decide) (by decide) (by decide) (by decide) (by decide) (by decide)).1⟩

/-- C4: a successful resell of an OWNED record credits the balance, in memory
and in the Store, by the resell value of the rarity of the record; the
status of the record becomes RESOLD in the new in-memory collection and in the Store while
all its other fields are unchanged; and the success outcome carries the same
price. -/
theorem resell_owned_credits_by_rarity (so : SortOrder) (dt : String → Int)
    (pokemonId : String) (app : AppState) (store : StoreState) (env : ResellEnv)
    (p : Pokemon)
    (hfind : app.pokemons.find? (fun q => q.id = pokemonId) = some p)
    (howned : p.status = PokemonStatus.OWNED)
    (hstore : (store.pokemons.find? (fun q => q.id = p.id)).isSome = true)
    (hu : env.updateFault = false) (hb : env.balanceFault = false)
    (hbal : 0 ≤ app.tokenBalance) :
    (handleResellConfirmation so dt pokemonId p.rarity app store env).1.tokenBalance
        = app.tokenBalance + POKEMON_RESELL_VALUES p.rarity ∧
    (handleResellConfirmation so dt pokemonId p.rarity app store env).2.1.balance
        = app.tokenBalance + POKEMON_RESELL_VALUES p.rarity ∧
    { p with status := PokemonStatus.RESOLD } ∈
        (handleResellConfirmation so dt pokemonId p.rarity app store env).1.pokemons ∧
    { p with status := PokemonStatus.RESOLD } ∈
        (handleResellConfirmation so dt pokemonId p.rarity app store env).2.1.pokemons ∧
    (handleResellConfirmation so dt pokemonId p.rarity app store env).2.2
        = ResellOutcome.resold p.name (POKEMON_RESELL_VALUES p.rarity) := by
  obtain ⟨q, hq⟩ := Option.isSome_iff_exists.mp hstore
  have hnn : 0 ≤ app.tokenBalance + POKEMON_RESELL_VALUES p.rarity :=
    add_nonneg hbal (POKEMON_RESELL_VALUES_nonneg p.rarity)
  unfold handleResellConfirmation
  rw [resellConfirm_found so dt pokemonId (POKEMON_RESELL_VALUES p.rarity) app store env p
    hfind hstore hu hb hnn]
  refine ⟨rfl, rfl, ?_, ?_, rfl⟩
  · exact resold_copy_mem so dt app.pokemons p (List.mem_of_find?_eq_some hfind)
  · exact resold_copy_mem_store store.pokemons p q hq

theorem resell_owned_credits_by_rarity_witness :
    (([samplePokemon ("a") PokemonRarity.A PokemonStatus.OWNED].find?
        (fun q => q.id = "a")) = some (samplePokemon ("a") PokemonRarity.A PokemonStatus.OWNED)) ∧
    ((handleResellConfirmation SortOrder.rarityAsc dt0 ("a") PokemonRarity.A
        { pokemons := [samplePokemon ("a") PokemonRarity.A PokemonStatus.OWNED], tokenBalance := 5 }
        { pokemons := [samplePokemon ("a") PokemonRarity.A PokemonStatus.OWNED], balance := 5 }
        { updateFault := false, balanceFault := false }).1.tokenBalance
      = 5 + POKEMON_RESELL_VALUES PokemonRarity.A) :=
  ⟨by decide,
   (resell_owned_credits_by_rarity SortOrder.rarityAsc dt0 ("a")
      { pokemons := [samplePokemon ("a") PokemonRarity.A PokemonStatus.OWNED], tokenBalance := 5 }
      { pokemons := [samplePokemon ("a") PokemonRarity.A PokemonStatus.OWNED], balance := 5 }
      { updateFault := false, balanceFault := false }
      (samplePokemon ("a") PokemonRarity.A PokemonStatus.OWNED)
      (by decide) (by decide) (by decide) (by decide) (by decide) (by decide)).1⟩

theorem gen_eq_insufficient (so : SortOrder) (dt : String → Int)
    (app : AppState) (store : StoreState) (env : GenEnv)
    (h : app.tokenBalance < GENERATION_COST) :
    handleGeneratePokemon so dt app store env =
      (app, store, GenOutcome.insufficient app.tokenBalance) := by
  unfold handleGeneratePokemon
  rw [if_pos h]

theorem gen_eq_debitFault (so : SortOrder) (dt : String → Int)
    (app : AppState) (store : StoreState) (env : GenEnv)
    (h : ¬ app.tokenBalance < GENERATION_COST) (hd : env.debitFault = true) :
    handleGeneratePokemon so dt app store env =
      (app, { store with balance := app.tokenBalance },
        GenOutcome.storeFailed StoreErr.infrastructure) := by
  unfold handleGeneratePokemon
  rw [if_neg h]
  simp only [hd, storeWriteBalance, if_true]

theorem gen_nonneg_after_debit (app : AppState)
    (h : ¬ app.tokenBalance < GENERATION_COST) :
    ¬ app.tokenBalance - GENERATION_COST < 0 := by
  rw [GENERATION_COST] at h ⊢
  omega

theorem gen_eq_genError (so : SortOrder) (dt : String → Int)
    (app : AppState) (store : StoreState) (env : GenEnv) (e : GenFailure)
    (h : ¬ app.tokenBalance < GENERATION_COST) (hd : env.debitFault = false)
    (he : env.genResult = Except.error e) :
    handleGeneratePokemon so dt app store env =
      (app, { store with balance := app.tokenBalance }, GenOutcome.failed e) := by
  unfold handleGeneratePokemon
  rw [if_neg h]
  simp only [hd, storeWriteBalance, Store.updateTokenBalance, Bool.false_eq_true, if_false,
    if_neg (gen_nonneg_after_debit app h), he]

theorem gen_eq_addResult (so : SortOrder) (dt : String → Int)
    (app : AppState) (store : StoreState) (env : GenEnv) (p : Pokemon)
    (h : ¬ app.tokenBalance < GENERATION_COST) (hd : env.debitFault = false)
    (he : env.genResult = Except.ok p) :
    handleGeneratePokemon so dt app store env =
      (match storeAddPokemon { store with balance := app.tokenBalance - GENERATION_COST } p
          env.addFault with
       | .error e =>
         (app, { store with balance := app.tokenBalance }, GenOutcome.storeFailed e)
       | .ok store2 =>
         ({ pokemons := sortPokemons so dt (p :: app.pokemons),
            tokenBalance := app.tokenBalance - GENERATION_COST },
          store2, GenOutcome.generated p)) := by
  unfold handleGeneratePokemon
  rw [if_neg h]
  simp only [hd, storeWriteBalance, Store.updateTokenBalance, Bool.false_eq_true, if_false,
    if_neg (gen_nonneg_after_debit app h), he]

/-- Every Pokemon the service returns has status OWNED. -/
theorem generatePokemonSettled_ok_status (draws : RandomDraws) (fs : FetchSettled)
    (p : Pokemon) (h : generatePokemonSettled draws fs = Except.ok p) :
    p.status = PokemonStatus.OWNED := by
  cases fs with
  | rejected e => cases e <;> simp [generatePokemonSettled] at h
  | resolved r =>
    simp only [generatePokemonSettled] at h
    split at h
    · split at h <;> simp_all
    · split at h
      · simp at h
      · simp at h
      · split at h
        · simp at h
        · split at h
          · split at h
            · simp at h
            · simp only [Except.ok.injEq] at h
              rw [← h]
          · simp at h

theorem pickType_mem (i : Fin 18) : pickType i ∈ POKEMON_TYPES :=
  List.get_mem _ _ _

theorem pickAttackName_mem (i : Fin 12) : pickAttackName i ∈ POKEMON_ATTACKS :=
  List.get_mem _ _ _

theorem pickType_not_empty (i : Fin 18) : (pickType i).isEmpty = false := by
  revert i; decide

theorem pickAttackName_not_empty (i : Fin 12) : (pickAttackName i).isEmpty = false := by
  revert i; decide

theorem truthyStr_true_iff (o : Option String) :
    truthyStr o = true ↔ ∃ s, o = some s ∧ s.isEmpty = false := by
  cases o <;> simp [truthyStr]

theorem truthyStr_false_iff (o : Option String) :
    truthyStr o = false ↔ o = none ∨ ∃ s, o = some s ∧ s.isEmpty = true := by
  cases o <;> simp [truthyStr]

/-- Characterization of the service on a 200 response with an object body and
a metadata object: the four stats are synthesized, then the eight validated
fields are checked. -/
theorem generatePokemonSettled_object (draws : RandomDraws) (r : FetchResponse)
    (b : ApiResponseBody) (m : ApiMetadata)
    (hok : r.ok = true) (hbody : r.body = JsonResult.object b)
    (hmeta : b.metadata = some m) :
    generatePokemonSettled draws (FetchSettled.resolved r) =
      match b.imageBase64, m.id, m.name, m.rarity, b.generatedAt with
      | some img, some idv, some namev, some rarv, some gatv =>
        if img.isEmpty || idv.isEmpty || namev.isEmpty ||
            (pickType draws.typeIdx).isEmpty || (10 + (draws.attackOff.val : Int)) = 0 ||
            (pickAttackName draws.attackNameIdx).isEmpty ||
            (50 + (draws.pvOff.val : Int)) = 0 || gatv.isEmpty then
          Except.error (GenFailure.malformedResponse malformedMessage)
        else
          Except.ok { id := idv, name := namev, rarity := rarv,
                      type := pickType draws.typeIdx,
                      attack := 10 + (draws.attackOff.val : Int),
                      attackName := pickAttackName draws.attackNameIdx,
                      pv := 50 + (draws.pvOff.val : Int),
                      imageBase64 := img, generatedAt := gatv,
                      status := PokemonStatus.OWNED }
      | _, _, _, _, _ => Except.error (GenFailure.malformedResponse malformedMessage) := by
  rcases himg : b.imageBase64 with _ | img <;>
    rcases hid : m.id with _ | idv <;>
    rcases hname : m.name with _ | namev <;>
    rcases hrar : m.rarity with _ | rarv <;>
    rcases hgat : b.generatedAt with _ | gatv <;>
    simp [generatePokemonSettled, hok, hbody, hmeta, himg, hid, hname, hrar, hgat]

/-! Claim theorems. -/

/-- C9: the pokedex score is a pure function of the collection, equal to
10 times the number of OWNED records plus 2 times the number of RESOLD
records, and recomputing it on the unchanged collection yields the same
value. -/
theorem pokedexScore_pure_linear (l : List Pokemon) :
    pokedexScore l = 10 * (ownedCount l : Int) + 2 * (resoldCount l : Int) ∧
    pokedexScore l = pokedexScore l := by
  refine ⟨?_, rfl⟩
  simpa [pokedexScore] using pokedexScore_aux l 0

/-- C7: a generate invocation made while the balance is strictly below
GENERATION_COST is rejected with the insufficient-funds warning and neither
the in-memory state nor the Store changes. -/
theorem generate_insufficient_funds_rejected (so : SortOrder) (dt : String → Int)
    (app : AppState) (store : StoreState) (env : GenEnv)
    (h : app.tokenBalance < GENERATION_COST) :
    handleGeneratePokemon so dt app store env =
      (app, store, GenOutcome.insufficient app.tokenBalance) := by
  unfold handleGeneratePokemon
  rw [if_pos h]

theorem generate_insufficient_funds_rejected_witness :
    ((5 : Int) < GENERATION_COST) ∧
    handleGeneratePokemon SortOrder.rarityAsc dt0
        { pokemons := [], tokenBalance := 5 } { pokemons := [], balance := 5 }
        { debitFault := false,
          genResult := Except.error (GenFailure.timeout timeoutMessage),
          addFault := false } =
      ({ pokemons := [], tokenBalance := 5 }, { pokemons := [], balance := 5 },
        GenOutcome.insufficient 5) :=
  ⟨by decide,
   generate_insufficient_funds_rejected SortOrder.rarityAsc dt0
     { pokemons := [], tokenBalance := 5 } { pokemons := [], balance := 5 }
     { debitFault := false,
       genResult := Except.error (GenFailure.timeout timeoutMessage),
       addFault := false }
     (by decide)⟩

/-- C1: whenever the generate flow surfaces a failure — the generator call
failing with any failure kind, or any Store call failing — the optimistic
debit is fully reverted: the final balance equals the initial balance in
memory and in the Store, and no record is added to the in-memory collection
or to the Store. Moreover a generator failure reached after the funds check
and a successful debit surfaces exactly that failure. -/
theorem generate_failure_rolls_back (so : SortOrder) (dt : String → Int)
    (app : AppState) (store : StoreState) (env : GenEnv)
    (hcoh : store.balance = app.tokenBalance) :
    (∀ e, (handleGeneratePokemon so dt app store env).2.2 = GenOutcome.failed e →
       (handleGeneratePokemon so dt app store env).1.tokenBalance = app.tokenBalance ∧
       (handleGeneratePokemon so dt app store env).2.1.balance = store.balance ∧
       (handleGeneratePokemon so dt app store env).1.pokemons = app.pokemons ∧
       (handleGeneratePokemon so dt app store env).2.1.pokemons = store.pokemons) ∧
    (∀ e, (handleGeneratePokemon so dt app store env).2.2 = GenOutcome.storeFailed e →
       (handleGeneratePokemon so dt app store env).1.tokenBalance = app.tokenBalance ∧
       (handleGeneratePokemon so dt app store env).2.1.balance = store.balance ∧
       (handleGeneratePokemon so dt app store env).1.pokemons = app.pokemons ∧
       (handleGeneratePokemon so dt app store env).2.1.pokemons = store.pokemons) ∧
    (¬ app.tokenBalance < GENERATION_COST → env.debitFault = false →
      ∀ e, env.genResult = Except.error e →
        (handleGeneratePokemon so dt app store env).2.2 = GenOutcome.failed e) := by
  by_cases hlt : app.tokenBalance < GENERATION_COST
  · rw [gen_eq_insufficient so dt app store env hlt]
    exact ⟨fun e he => by simp at he, fun e he => by simp at he,
      fun h2 => absurd hlt h2⟩
  · cases hdb : env.debitFault with
    | true =>
      rw [gen_eq_debitFault so dt app store env hlt hdb]
      refine ⟨fun e he => by simp at he, fun e he => ⟨rfl, hcoh.symm, rfl, rfl⟩, ?_⟩
      intro _ hdf'
      simp at hdf'
    | false =>
      cases hg : env.genResult with
      | error e0 =>
        rw [gen_eq_genError so dt app store env e0 hlt hdb hg]
        refine ⟨fun e he => ⟨rfl, hcoh.symm, rfl, rfl⟩, fun e he => by simp at he, ?_⟩
        intro _ _ e' he'
        simp only [Except.error.injEq] at he'
        rw [he']
      | ok p =>
        rw [gen_eq_addResult so dt app store env p hlt hdb hg]
        cases hadd : storeAddPokemon { store with balance := app.tokenBalance - GENERATION_COST }
            p env.addFault with
        | error e1 =>
          refine ⟨fun e he => by simp at he, fun e he => ⟨rfl, hcoh.symm, rfl, rfl⟩, ?_⟩
          intro _ _ e' he'
          simp at he'
        | ok s2 =>
          refine ⟨fun e he => by simp at he, fun e he => by simp at he, ?_⟩
          intro _ _ e' he'
          simp at he'

theorem generate_failure_rolls_back_witness :
    (({ pokemons := [], balance := 10 } : StoreState).balance
        = ({ pokemons := [], tokenBalance := 10 } : AppState).tokenBalance) ∧
    ((handleGeneratePokemon SortOrder.rarityAsc dt0
        { pokemons := [], tokenBalance := 10 } { pokemons := [], balance := 10 }
        { debitFault := false,
          genResult := Except.error (GenFailure.timeout timeoutMessage),
          addFault := false }).2.2 = GenOutcome.failed (GenFailure.timeout timeoutMessage)) ∧
    ((handleGeneratePokemon SortOrder.rarityAsc dt0
        { pokemons := [], tokenBalance := 10 } { pokemons := [], balance := 10 }
        { debitFault := false,
          genResult := Except.error (GenFailure.timeout timeoutMessage),
          addFault := false }).1.tokenBalance = 10) :=
  ⟨rfl,
   (generate_failure_rolls_back SortOrder.rarityAsc dt0
      { pokemons := [], tokenBalance := 10 } { pokemons := [], balance := 10 }
      { debitFault := false,
        genResult := Except.error (GenFailure.timeout timeoutMessage),
        addFault := false } rfl).2.2 (by decide) rfl _ rfl,
   ((generate_failure_rolls_back SortOrder.rarityAsc dt0
      { pokemons := [], tokenBalance := 10 } { pokemons := [], balance := 10 }
      { debitFault := false,
        genResult := Except.error (GenFailure.timeout timeoutMessage),
        addFault := false } rfl).1 (GenFailure.timeout timeoutMessage) (by decide)).1⟩

/-- C3: a successful generate invocation debits exactly GENERATION_COST from
the balance, in memory and in the Store, adds the generated record to the
in-memory collection and to the Store, and the new record has status OWNED. -/
theorem generate_success_debits_and_adds_owned (so : SortOrder) (dt : String → Int)
    (app : AppState) (store : StoreState) (env : GenEnv)
    (draws : RandomDraws) (latency : Nat) (settled : FetchSettled) (p : Pokemon)
    (hgen : generatePokemon draws latency settled = Except.ok p)
    (henv : env.genResult = generatePokemon draws latency settled)
    (h : ¬ app.tokenBalance < GENERATION_COST)
    (hd : env.debitFault = false) (ha : env.addFault = false)
    (hdup : store.pokemons.any (fun q => q.id = p.id) = false) :
    (handleGeneratePokemon so dt app store env).1.tokenBalance
        = app.tokenBalance - GENERATION_COST ∧
    (handleGeneratePokemon so dt app store env).2.1.balance
        = app.tokenBalance - GENERATION_COST ∧
    p ∈ (handleGeneratePokemon so dt app store env).1.pokemons ∧
    (handleGeneratePokemon so dt app store env).2.1.pokemons = store.pokemons ++ [p] ∧
    p.status = PokemonStatus.OWNED ∧
    (handleGeneratePokemon so dt app store env).2.2 = GenOutcome.generated p := by
  have he : env.genResult = Except.ok p := henv.trans hgen
  have hstatus : p.status = PokemonStatus.OWNED :=
    generatePokemonSettled_ok_status draws (resolveFetch latency settled) p hgen
  have hadd : storeAddPokemon { store with balance := app.tokenBalance - GENERATION_COST } p
      env.addFault =
      Except.ok { pokemons := store.pokemons ++ [p],
                  balance := app.tokenBalance - GENERATION_COST } := by
    simp only [ha, storeAddPokemon, Store.addPokemon, Bool.false_eq_true, if_false]
    rw [if_neg]
    simp [hdup]
  rw [gen_eq_addResult so dt app store env p h hd he, hadd]
  refine ⟨rfl, rfl, ?_, rfl, hstatus, rfl⟩
  exact (List.perm_insertionSort _ _).mem_iff.mpr (List.mem_cons_self p app.pokemons)

theorem generate_success_debits_and_adds_owned_witness :
    generatePokemon sampleDraws 0 (FetchSettled.resolved sampleResponse)
        = Except.ok samplePokemonResult ∧
    (handleGeneratePokemon SortOrder.rarityAsc dt0
        { pokemons := [], tokenBalance := 10 } { pokemons := [], balance := 10 }
        { debitFault := false,
          genResult := generatePokemon sampleDraws 0 (FetchSettled.resolved sampleResponse),
          addFault := false }).1.tokenBalance = 0 ∧
    samplePokemonResult.status = PokemonStatus.OWNED :=
  ⟨rfl,
   ((generate_success_debits_and_adds_owned SortOrder.rarityAsc dt0
        { pokemons := [], tokenBalance := 10 } { pokemons := [], balance := 10 }
        { debitFault := false,
          genResult := generatePokemon sampleDraws 0 (FetchSettled.resolved sampleResponse),
          addFault := false }
        sampleDraws 0 (FetchSettled.resolved sampleResponse) samplePokemonResult
        rfl rfl (by decide) rfl rfl (by decide)).1).trans (by decide),
   (generate_success_debits_and_adds_owned SortOrder.rarityAsc dt0
        { pokemons := [], tokenBalance := 10 } { pokemons := [], balance := 10 }
        { debitFault := false,
          genResult := generatePokemon sampleDraws 0 (FetchSettled.resolved sampleResponse),
          addFault := false }
        sampleDraws 0 (FetchSettled.resolved sampleResponse) samplePokemonResult
        rfl rfl (by decide) rfl rfl (by decide)).2.2.2.2.1⟩

/-- C10: every record the service returns carries the locally synthesized
values of type, attack, attackName and pv determined by the random draws;
whatever the remote response supplied for these four fields never reaches the
returned record. -/
theorem generated_stats_always_synthesized (draws : RandomDraws) (latency : Nat)
    (settled : FetchSettled) (p : Pokemon)
    (h : generatePokemon draws latency settled = Except.ok p) :
    p.type = pickType draws.typeIdx ∧
    p.attack = 10 + (draws.attackOff.val : Int) ∧
    p.attackName = pickAttackName draws.attackNameIdx ∧
    p.pv = 50 + (draws.pvOff.val : Int) := by
  unfold generatePokemon at h
  generalize resolveFetch latency settled = fs at h
  cases fs with
  | rejected e => cases e <;> simp [generatePokemonSettled] at h
  | resolved r =>
    simp only [generatePokemonSettled] at h
    split at h
    · split at h <;> simp_all
    · split at h
      · simp at h
      · simp at h
      · split at h
        · simp at h
        · split at h
          · split at h
            · simp at h
            · simp only [Except.ok.injEq] at h
              subst h
              simp_all
          · simp at h

theorem generated_stats_always_synthesized_witness :
    generatePokemon sampleDraws 0 (FetchSettled.resolved sampleResponse)
        = Except.ok samplePokemonResult ∧
    samplePokemonResult.type = pickType sampleDraws.typeIdx ∧
    samplePokemonResult.attack = 10 + (sampleDraws.attackOff.val : Int) ∧
    samplePokemonResult.attackName = pickAttackName sampleDraws.attackNameIdx ∧
    samplePokemonResult.pv = 50 + (sampleDraws.pvOff.val : Int) :=
  ⟨rfl,
   generated_stats_always_synthesized sampleDraws 0 (FetchSettled.resolved sampleResponse)
     samplePokemonResult rfl⟩

/-- C5: on a 200 response whose body decoded to an object carrying a metadata
object, the client synthesizes the gameplay stats locally before validation —
every returned record has its type in the fixed 18-entry type set, its
attackName in the fixed move-name set, attack in [10,100] and pv in [50,200] —
and if any required field the synthesis does not fill (id, name, rarity,
imageBase64, generatedAt) is missing after synthesis, the call fails with
MalformedResponse, while the call succeeds whenever those five are present
even though the remote supplied none of the four stats. -/
theorem generate_synthesizes_then_validates (draws : RandomDraws) (r : FetchResponse)
    (b : ApiResponseBody) (m : ApiMetadata)
    (hok : r.ok = true) (hbody : r.body = JsonResult.object b)
    (hmeta : b.metadata = some m) :
    POKEMON_TYPES.length = 18 ∧
    POKEMON_ATTACKS.length = 12 ∧
    (∀ p, generatePokemonSettled draws (FetchSettled.resolved r) = Except.ok p →
       p.type ∈ POKEMON_TYPES ∧ p.attackName ∈ POKEMON_ATTACKS ∧
       10 ≤ p.attack ∧ p.attack ≤ 100 ∧ 50 ≤ p.pv ∧ p.pv ≤ 200) ∧
    ((truthyStr m.id = false ∨ truthyStr m.name = false ∨ m.rarity = none ∨
        truthyStr b.imageBase64 = false ∨ truthyStr b.generatedAt = false) →
      generatePokemonSettled draws (FetchSettled.resolved r) =
        Except.error (GenFailure.malformedResponse malformedMessage)) ∧
    (truthyStr b.imageBase64 = true → truthyStr m.id = true → truthyStr m.name = true →
      m.rarity.isSome = true → truthyStr b.generatedAt = true →
      ∃ p, generatePokemonSettled draws (FetchSettled.resolved r) = Except.ok p) := by
  have hchar := generatePokemonSettled_object draws r b m hok hbody hmeta
  refine ⟨rfl, rfl, ?_, ?_, ?_⟩
  · intro p hp
    rw [hchar] at hp
    split at hp
    · split at hp
      · simp at hp
      · simp only [Except.ok.injEq] at hp
        subst hp
        refine ⟨pickType_mem _, pickAttackName_mem _, ?_, ?_, ?_, ?_⟩
        · show (10 : Int) ≤ 10 + (draws.attackOff.val : Int)
          omega
        · show (10 : Int) + (draws.attackOff.val : Int) ≤ 100
          have := draws.attackOff.isLt
          omega
        · show (50 : Int) ≤ 50 + (draws.pvOff.val : Int)
          omega
        · show (50 : Int) + (draws.pvOff.val : Int) ≤ 200
          have := draws.pvOff.isLt
          omega
    · simp at hp
  · intro hmiss
    rw [hchar]
    rcases himg2 : b.imageBase64 with _ | img <;>
      rcases hid2 : m.id with _ | idv <;>
      rcases hname2 : m.name with _ | namev <;>
      rcases hrar2 : m.rarity with _ | rarv <;>
      rcases hgat2 : b.generatedAt with _ | gatv <;>
      first
        | (simp; done)
        | (rw [himg2, hid2, hname2, hrar2, hgat2] at hmiss
           rcases hmiss with hm | hm | hm | hm | hm <;> simp_all [truthyStr])
  · intro h1 h2 h3 h4 h5
    rw [hchar]
    obtain ⟨img, himg2, himge⟩ := (truthyStr_true_iff _).mp h1
    obtain ⟨idv, hid2, hide⟩ := (truthyStr_true_iff _).mp h2
    obtain ⟨namev, hname2, hnamee⟩ := (truthyStr_true_iff _).mp h3
    obtain ⟨rarv, hrar2⟩ := Option.isSome_iff_exists.mp h4
    obtain ⟨gatv, hgat2, hgate⟩ := (truthyStr_true_iff _).mp h5
    rw [himg2, hid2, hname2, hrar2, hgat2]
    have h10 : ¬ ((10 : Int) + (draws.attackOff.val : Int) = 0) := by omega
    have h50 : ¬ ((50 : Int) + (draws.pvOff.val : Int) = 0) := by omega
    refine ⟨{ id := idv, name := namev, rarity := rarv,
              type := pickType draws.typeIdx,
              attack := 10 + (draws.attackOff.val : Int),
              attackName := pickAttackName draws.attackNameIdx,
              pv := 50 + (draws.pvOff.val : Int),
              imageBase64 := img, generatedAt := gatv,
              status := PokemonStatus.OWNED }, ?_⟩
    simp [himge, hide, hnamee, hgate, pickType_not_empty, pickAttackName_not_empty, h10, h50]

theorem generate_synthesizes_then_validates_witness :
    (sampleResponse.ok = true) ∧
    POKEMON_TYPES.length = 18 ∧
    ∃ p, generatePokemonSettled sampleDraws (FetchSettled.resolved sampleResponse)
      = Except.ok p :=
  ⟨rfl,
   (generate_synthesizes_then_validates sampleDraws sampleResponse sampleBody
     { id := some ("pkm1"), name := some ("Voltadraco"), rarity := some PokemonRarity.A,
       type := none, attack := none, attackName := none, pv := none }
     rfl rfl rfl).1,
   (generate_synthesizes_then_validates sampleDraws sampleResponse sampleBody
     { id := some ("pkm1"), name := some ("Voltadraco"), rarity := some PokemonRarity.A,
       type := none, attack := none, attackName := none, pv := none }
     rfl rfl rfl).2.2.2.2 rfl rfl rfl rfl rfl⟩

set_option maxRecDepth 10000 in
/-- C6: the client enforces a hard 30 * 1000 millisecond timeout — once the
latency reaches it, the settled outcome of the underlying call is discarded
(cancelled) and the operation fails with the Timeout failure, whatever the
call would have produced — the four failure kinds Timeout, NetworkUnavailable,
MalformedResponse and RemoteError are pairwise distinct results never
collapsed into one, and the NetworkUnavailable message guides the caller
toward certificate (TLS) and CORS checks. -/
theorem generator_timeout_and_distinct_failures :
    REQUEST_TIMEOUT = 30 * 1000 ∧
    (∀ (draws : RandomDraws) (latency : Nat) (settled : FetchSettled),
       REQUEST_TIMEOUT ≤ latency →
       generatePokemon draws latency settled =
         Except.error (GenFailure.timeout timeoutMessage)) ∧
    (∀ m1 m2 m3 m4 : String,
       GenFailure.timeout m1 ≠ GenFailure.networkUnavailable m2 ∧
       GenFailure.timeout m1 ≠ GenFailure.malformedResponse m3 ∧
       GenFailure.timeout m1 ≠ GenFailure.remoteError m4 ∧
       GenFailure.networkUnavailable m2 ≠ GenFailure.malformedResponse m3 ∧
       GenFailure.networkUnavailable m2 ≠ GenFailure.remoteError m4 ∧
       GenFailure.malformedResponse m3 ≠ GenFailure.remoteError m4) ∧
    mentions networkUnavailableMessage ("CORS") ∧
    mentions networkUnavailableMessage ("certificate") := by
  refine ⟨rfl, ?_, ?_, by decide, by decide⟩
  · intro draws latency settled hle
    unfold generatePokemon resolveFetch
    rw [if_pos hle]
    rfl
  · intro m1 m2 m3 m4
    refine ⟨?_, ?_, ?_, ?_, ?_, ?_⟩ <;> exact fun hcontra => GenFailure.noConfusion hcontra

theorem generator_timeout_and_distinct_failures_witness :
    REQUEST_TIMEOUT ≤ 30000 ∧
    generatePokemon sampleDraws 30000 (FetchSettled.resolved sampleResponse) =
      Except.error (GenFailure.timeout timeoutMessage) ∧
    GenFailure.timeout timeoutMessage ≠
      GenFailure.networkUnavailable networkUnavailableMessage :=
  ⟨by decide,
   (generator_timeout_and_distinct_failures).2.1 sampleDraws 30000
     (FetchSettled.resolved sampleResponse) (by decide),
   ((generator_timeout_and_distinct_failures).2.2.1 timeoutMessage
     networkUnavailableMessage malformedMessage timeoutMessage).1⟩

/-- C8 counterexample: on a collection holding two records of equal rarity the
stable sort keeps their original order in both directions, so the descending
sort is not the reverse of the ascending sort. -/
theorem sort_reverse_counterexample :
    sortPokemons SortOrder.rarityDesc dt0
        [samplePokemon ("a") PokemonRarity.A PokemonStatus.OWNED,
         samplePokemon ("b") PokemonRarity.A PokemonStatus.OWNED] ≠
      (sortPokemons SortOrder.rarityAsc dt0
        [samplePokemon ("a") PokemonRarity.A PokemonStatus.OWNED,
         samplePokemon ("b") PokemonRarity.A PokemonStatus.OWNED]).reverse := by
  decide

/-- C8 (amended): the rarity ordering is total and fixed as
F < E < D < C < B < A < S < S+, and on every collection whose records have
pairwise-distinct rarities, sorting descending yields exactly the reverse of
sorting ascending. -/
theorem rarity_total_order_and_sort_reverse (dt : String → Int) (l : List Pokemon)
    (hdist : l.Pairwise (fun a b => a.rarity ≠ b.rarity)) :
    (RARITY_VALUES PokemonRarity.F < RARITY_VALUES PokemonRarity.E ∧
     RARITY_VALUES PokemonRarity.E < RARITY_VALUES PokemonRarity.D ∧
     RARITY_VALUES PokemonRarity.D < RARITY_VALUES PokemonRarity.C ∧
     RARITY_VALUES PokemonRarity.C < RARITY_VALUES PokemonRarity.B ∧
     RARITY_VALUES PokemonRarity.B < RARITY_VALUES PokemonRarity.A ∧
     RARITY_VALUES PokemonRarity.A < RARITY_VALUES PokemonRarity.S ∧
     RARITY_VALUES PokemonRarity.S < RARITY_VALUES PokemonRarity.S_PLUS) ∧
    (∀ a b : PokemonRarity,
       RARITY_VALUES a < RARITY_VALUES b ∨ RARITY_VALUES a = RARITY_VALUES b ∨
         RARITY_VALUES b < RARITY_VALUES a) ∧
    sortPokemons SortOrder.rarityDesc dt l =
      (sortPokemons SortOrder.rarityAsc dt l).reverse := by
  refine ⟨by decide, by decide, ?_⟩
  haveI instTotalAsc :
      IsTotal Pokemon (fun a b => sortLe SortOrder.rarityAsc dt a b = true) :=
    ⟨fun a b => by
      rw [sortLe_rarityAsc, sortLe_rarityAsc]; exact le_total _ _⟩
  haveI instTransAsc :
      IsTrans Pokemon (fun a b => sortLe SortOrder.rarityAsc dt a b = true) :=
    ⟨fun a b c hab hbc => by
      rw [sortLe_rarityAsc] at hab hbc ⊢; exact le_trans hab hbc⟩
  haveI instTotalDesc :
      IsTotal Pokemon (fun a b => sortLe SortOrder.rarityDesc dt a b = true) :=
    ⟨fun a b => by
      rw [sortLe_rarityDesc, sortLe_rarityDesc]; exact (le_total _ _).symm⟩
  haveI instTransDesc :
      IsTrans Pokemon (fun a b => sortLe SortOrder.rarityDesc dt a b = true) :=
    ⟨fun a b c hab hbc => by
      rw [sortLe_rarityDesc] at hab hbc ⊢; exact le_trans hbc hab⟩
  have hpermA : (sortPokemons SortOrder.rarityAsc dt l).Perm l :=
    List.perm_insertionSort _ l
  have hpermD : (sortPokemons SortOrder.rarityDesc dt l).Perm l :=
    List.perm_insertionSort _ l
  have hsortA := List.sorted_insertionSort
    (fun a b => sortLe SortOrder.rarityAsc dt a b = true) l
  have hsortD := List.sorted_insertionSort
    (fun a b => sortLe SortOrder.rarityDesc dt a b = true) l
  have hne_l : l.Pairwise (fun a b => rarityKey a ≠ rarityKey b) :=
    hdist.imp (fun h hk => h (RARITY_VALUES_inj _ _ hk))
  have hsymm : ∀ {x y : Pokemon},
      rarityKey x ≠ rarityKey y → rarityKey y ≠ rarityKey x := fun h => h.symm
  have hne_A : (sortPokemons SortOrder.rarityAsc dt l).Pairwise
      (fun a b => rarityKey a ≠ rarityKey b) :=
    (List.Perm.pairwise_iff hsymm hpermA).mpr hne_l
  have hne_D : (sortPokemons SortOrder.rarityDesc dt l).Pairwise
      (fun a b => rarityKey a ≠ rarityKey b) :=
    (List.Perm.pairwise_iff hsymm hpermD).mpr hne_l
  have hle_A : (sortPokemons SortOrder.rarityAsc dt l).Pairwise
      (fun a b => rarityKey a ≤ rarityKey b) :=
    hsortA.imp (fun h => (sortLe_rarityAsc dt _ _).mp h)
  have hge_D : (sortPokemons SortOrder.rarityDesc dt l).Pairwise
      (fun a b => rarityKey b ≤ rarityKey a) :=
    hsortD.imp (fun h => (sortLe_rarityDesc dt _ _).mp h)
  have hlt_A : (sortPokemons SortOrder.rarityAsc dt l).Pairwise
      (fun a b => rarityKey a < rarityKey b) :=
    (hle_A.and hne_A).imp (fun h => lt_of_le_of_ne h.1 h.2)
  have hgt_D : (sortPokemons SortOrder.rarityDesc dt l).Pairwise
      (fun a b => rarityKey b < rarityKey a) :=
    (hge_D.and hne_D).imp (fun h => lt_of_le_of_ne h.1 (fun hk => h.2 hk.symm))
  haveI : IsAntisymm Pokemon (fun a b => rarityKey b < rarityKey a) :=
    ⟨fun a b h1 h2 => absurd (lt_trans h1 h2) (lt_irrefl _)⟩
  have hsortArev : List.Sorted (fun a b => rarityKey b < rarityKey a)
      (sortPokemons SortOrder.rarityAsc dt l).reverse :=
    List.pairwise_reverse.mpr hlt_A
  have hperm : (sortPokemons SortOrder.rarityDesc dt l).Perm
      (sortPokemons SortOrder.rarityAsc dt l).reverse :=
    (hpermD.trans hpermA.symm).trans
      (List.reverse_perm (sortPokemons SortOrder.rarityAsc dt l)).symm
  exact List.eq_of_perm_of_sorted hperm hgt_D hsortArev

theorem rarity_total_order_and_sort_reverse_witness :
    ([samplePokemon ("a") PokemonRarity.A PokemonStatus.OWNED,
      samplePokemon ("b") PokemonRarity.F PokemonStatus.OWNED].Pairwise
        (fun a b => a.rarity ≠ b.rarity)) ∧
    sortPokemons SortOrder.rarityDesc dt0
        [samplePokemon ("a") PokemonRarity.A PokemonStatus.OWNED,
         samplePokemon ("b") PokemonRarity.F PokemonStatus.OWNED] =
      (sortPokemons SortOrder.rarityAsc dt0
        [samplePokemon ("a") PokemonRarity.A PokemonStatus.OWNED,
         samplePokemon ("b") PokemonRarity.F PokemonStatus.OWNED]).reverse :=
  ⟨by decide,
   (rarity_total_order_and_sort_reverse dt0
     [samplePokemon ("a") PokemonRarity.A PokemonStatus.OWNED,
      samplePokemon ("b") PokemonRarity.F PokemonStatus.OWNED]
     (by decide)).2.2⟩

end PokemonGen
